import Mathlib

/-!
Verification of the highlight-generation pipeline (`src/app.py`) and the
standalone intro utility (`src/modules/simple_intro.py`).

The Streamlit request handler `main` in `app.py` is embedded as a pure
function over an environment that supplies the results of its effectful
calls (the detector modules, the highlight creator, the video editor and
the filesystem).  The handler's observable behaviour — the ordered trace
of filesystem operations and pipeline stages it performs, and the final
message shown to the user — is returned explicitly.
-/

namespace Highlights

/-- A scored time interval, as the detector modules return lists of them. -/
abbrev Seg := ℚ × ℚ

/-- Pipeline stages of `main` (`app.py` lines 98–168): the three detector
calls, highlight selection, assembly, and the results display. -/
inductive Stage
  | scene
  | audio
  | action
  | select
  | assemble
  | report
deriving DecidableEq, Repr

/-- Observable events of one request: filesystem operations and stage
entries, in the order `main` performs them.  `removeDir` is the event a
cleanup of the temporary directory would emit. -/
inductive Event
  | mkdtemp (dir : String)
  | writeFile (path : String)
  | removeDir (dir : String)
  | stage (s : Stage)
deriving DecidableEq, Repr

/-- Whether an event is a directory removal. -/
def Event.isRemove : Event → Bool
  | .removeDir _ => true
  | _ => false

/-- What the user is shown at the end of a request: the success panel with
the output video (`st.success`, line 147), the missing-output error
(`st.error`, line 168), or the exception handler's error (line 171). -/
inductive Outcome
  | successShown (path : String)
  | failedShown
  | errorShown (msg : String)
deriving DecidableEq, Repr

/-- Environment of one request: the upload, the directory `tempfile.mkdtemp`
returned, the `duration` field of `get_video_info` (none when the probe
failed), and the result of each effectful pipeline call.  An `Except.error`
models the call raising an exception; `highlights` is a function of the
`target_duration` argument `main` passes to it; `assembled` is the return
value of `create_highlight_video` (`none` models Python `None`);
`fileSize` is the on-disk size of a path, `none` when the path does not
exist. -/
structure Env where
  uploadName : String
  tempDir : String
  videoInfo : Option ℚ
  scenes : Except String (List Seg)
  audio : Except String (List Seg)
  actions : Except String (List Seg)
  highlights : ℚ → Except String (List Seg)
  assembled : Except String (Option String)
  fileSize : String → Option Nat

/-- The video duration `main` works with (`app.py` line 118):
`float(video_info.get('duration', 0)) if video_info else 0`. -/
def videoDurationOf : Option ℚ → ℚ
  | some d => d
  | none => 0

/-- The target duration passed to the selection stage (`app.py` line 119):
`min(60, video_duration * 0.3) if video_duration else 60`. -/
def targetDurationOf (info : Option ℚ) : ℚ :=
  let d := videoDurationOf info
  if d ≠ 0 then min 60 (d * (3 / 10)) else 60

/-- Message head of the exception handler (`app.py` line 171). -/
def errHead : String := "Error generating highlights: "

/-- The request handler of `app.py` (upload save, lines 58–63, then the
Generate-button body, lines 86–172).  Every call runs in one `try` block;
the first exception jumps to the handler, which shows
`errHead ++ str(e)`.  After assembly the results area shows success only
when the returned path is truthy and exists on disk. -/
def runMain (env : Env) : List Event × Outcome :=
  let tempPath := env.tempDir ++ "/" ++ env.uploadName
  let pre := [Event.mkdtemp env.tempDir, Event.writeFile tempPath]
  match env.scenes with
  | .error e => (pre ++ [Event.stage .scene], .errorShown (errHead ++ e))
  | .ok _ =>
  match env.audio with
  | .error e =>
      (pre ++ [Event.stage .scene, Event.stage .audio],
       .errorShown (errHead ++ e))
  | .ok _ =>
  match env.actions with
  | .error e =>
      (pre ++ [Event.stage .scene, Event.stage .audio, Event.stage .action],
       .errorShown (errHead ++ e))
  | .ok _ =>
  match env.highlights (targetDurationOf env.videoInfo) with
  | .error e =>
      (pre ++ [Event.stage .scene, Event.stage .audio, Event.stage .action,
               Event.stage .select],
       .errorShown (errHead ++ e))
  | .ok _ =>
  match env.assembled with
  | .error e =>
      (pre ++ [Event.stage .scene, Event.stage .audio, Event.stage .action,
               Event.stage .select, Event.stage .assemble],
       .errorShown (errHead ++ e))
  | .ok outputPath =>
      let events := pre ++
        [Event.stage .scene, Event.stage .audio, Event.stage .action,
         Event.stage .select, Event.stage .assemble, Event.stage .report]
      match outputPath with
      | none => (events, .failedShown)
      | some p =>
          if p ≠ "" ∧ (env.fileSize p).isSome then (events, .successShown p)
          else (events, .failedShown)

/-- The pipeline stages a request entered, in order. -/
def stageTrace (env : Env) : List Stage :=
  (runMain env).1.filterMap fun e =>
    match e with
    | .stage s => some s
    | _ => none

/-- The full stage order of a request that runs to completion. -/
def canonicalStages : List Stage :=
  [.scene, .audio, .action, .select, .assemble, .report]

/-! Output naming.  `app.py` line 130 formats `datetime.now()` with
`"%Y%m%d_%H%M%S"`, but the path built from it at line 131 is a dead
store: line 132 immediately rebinds `output_path` to the return value of
`video_editor.create_highlight_video(..., output_dir="output")`, and the
`video_editor` module is not under `src/`.  The generated filename is
therefore modelled from the spec below. -/

/-- Wall-clock time at second resolution, the fields
`strftime("%Y%m%d_%H%M%S")` reads. -/
structure Timestamp where
  year : Nat
  month : Nat
  day : Nat
  hour : Nat
  minute : Nat
  second : Nat
deriving DecidableEq, Repr

/-- Zero-padded two-digit decimal rendering: the output of `%m`, `%d`,
`%H`, `%M`, `%S` for their values, all below 100. -/
def pad2 (n : Nat) : String :=
  ⟨[Nat.digitChar (n / 10), Nat.digitChar (n % 10)]⟩

/-- Zero-padded four-digit decimal rendering: the output of `%Y` for
common-era years below 10000. -/
def pad4 (n : Nat) : String :=
  ⟨[Nat.digitChar (n / 1000), Nat.digitChar (n / 100 % 10),
    Nat.digitChar (n / 10 % 10), Nat.digitChar (n % 10)]⟩

/-- `datetime.now().strftime("%Y%m%d_%H%M%S")` (`app.py` line 130). -/
def formatTimestamp (t : Timestamp) : String :=
  pad4 t.year ++ pad2 t.month ++ pad2 t.day ++ "_" ++
    pad2 t.hour ++ pad2 t.minute ++ pad2 t.second

/-- Timestamp fields inside the ranges `strftime` renders at the widths
above: month, day, hour, minute and second below 100, the year below
10000. -/
def ValidTime (t : Timestamp) : Prop :=
  t.year < 10000 ∧ t.month < 100 ∧ t.day < 100 ∧ t.hour < 100 ∧
    t.minute < 100 ∧ t.second < 100

instance (t : Timestamp) : Decidable (ValidTime t) := by
  unfold ValidTime
  infer_instance

/-- A highlight-generation request as far as output naming is concerned:
the uploaded source's name (its source identifier) and the wall clock
when the name is built. -/
structure Request where
  sourceName : String
  now : Timestamp
deriving DecidableEq, Repr

/-- Modelled from the spec: the generated output filename.  The function
that chooses it, `video_editor.create_highlight_video`, is missing from
`src/`; §5 requires the shared output directory to "tolerate concurrent
writers via unique, collision-free output filenames (e.g., timestamp +
source identifier)".  Following those words — and the visible
`highlights_<timestamp>` convention of `app.py` line 131 — the name
joins the request's timestamp with its source identifier. -/
def generatedOutputName (r : Request) : String :=
  "output/highlights_" ++ formatTimestamp r.now ++ "_" ++ r.sourceName
    ++ ".mp4"

end Highlights

namespace SimpleIntro

/-- The ffmpeg command `create_simple_highlight_intro` builds
(`simple_intro.py` lines 27–35). -/
def introCmd (output_path : String) (width height : Nat) : List String :=
  ["ffmpeg", "-y",
   "-f", "lavfi",
   "-i", "color=c=black:s=" ++ toString width ++ "x" ++ toString height
          ++ ":d=2",
   "-vf", "drawtext=text=HIGHLIGHTS:fontcolor=white:fontsize=96:x=(w-text_w)/2:y=(h-text_h)/2",
   "-c:v", "libx264",
   "-t", "2",
   output_path]

/-- Environment of one `create_simple_highlight_intro` call: the result of
`subprocess.run` (`Except.error` models the call raising), the size of
`output_path` afterwards (`none` when it does not exist), and any other
exception raised inside the `try` block (logging, `stderr.decode`). -/
structure IntroEnv where
  run : Except String Int
  size : Option Nat
  otherExn : Option String

/-- The body of the `try` block (`simple_intro.py` lines 24–49): run
ffmpeg, return `False` on a nonzero exit code, then return `True` exactly
when the output exists and has size above 1000 bytes. -/
def introBody (env : IntroEnv) : Except String Bool :=
  match env.otherExn with
  | some e => .error e
  | none =>
    match env.run with
    | .error e => .error e
    | .ok rc =>
      if rc != 0 then .ok false
      else
        match env.size with
        | some s => .ok (decide (1000 < s))
        | none => .ok false

/-- The public function (`simple_intro.py` lines 23–53): the `except`
clause maps every exception to `False`, so the caller always receives a
`Bool`. -/
def create_simple_highlight_intro (env : IntroEnv) : Bool :=
  match introBody env with
  | .ok b => b
  | .error _ => false

end SimpleIntro

namespace Selector

/-- A candidate highlight interval with its aggregate score, the input of
the Budgeted Segment Selector (spec §3, §4.3). -/
structure Candidate where
  start : ℚ
  stop : ℚ
  score : ℚ
deriving DecidableEq, Repr

/-- A candidate's duration in seconds. -/
def duration (c : Candidate) : ℚ := c.stop - c.start

/-- The weighted score of a candidate, `aggregateScore × duration`, the
accounting the spec's Scenario A uses (`0.95×15=14.25`, `9+2=11`). -/
def weightedScore (c : Candidate) : ℚ := c.score * duration c

/-- Modelled from the spec: the Budgeted Segment Selector (§4.3), which is
not under `src/` (the `highlight_creator` module is absent).  Candidates
are pairwise disjoint and sorted by start, so the task is exact 0/1
knapsack: choose a subset maximizing total weighted score with total
duration at most the budget.  The spec's DP over budget buckets is
embedded as the equivalent take/skip recursion over the sorted candidate
list; a candidate whose duration exceeds the remaining budget is excluded,
never force-included, and ties prefer taking the chronologically earlier
candidate.  (The under-fill fallback of §4.3 is not modelled: in every
instance below the optimum fills the budget.) -/
def selectKnapsack : List Candidate → ℚ → ℚ × List Candidate
  | [], _ => (0, [])
  | c :: cs, budget =>
    if duration c ≤ budget then
      let take := selectKnapsack cs (budget - duration c)
      let skip := selectKnapsack cs budget
      if skip.1 ≤ weightedScore c + take.1 then
        (weightedScore c + take.1, c :: take.2)
      else skip
    else selectKnapsack cs budget

/-- Scenario A's candidates: `(0,10,0.9)`, `(15,20,0.4)`, `(25,40,0.95)`. -/
def scenarioA : List Candidate :=
  [⟨0, 10, 9 / 10⟩, ⟨15, 20, 2 / 5⟩, ⟨25, 40, 19 / 20⟩]

end Selector

namespace Highlights

/-- The output path used by the nominal environments below. -/
def outPathOk : String := "output/highlights_20260101_120000.mp4"

/-- A nominal request environment: every call succeeds, each detector
returns a nonempty signal, and the assembled output exists with a
multi-megabyte size. -/
def envAllOk : Env where
  uploadName := "clip.mp4"
  tempDir := "tmp_req"
  videoInfo := some 100
  scenes := .ok [(0, 5)]
  audio := .ok [(1, 2)]
  actions := .ok [(3, 4)]
  highlights := fun _ => .ok [(0, 5), (25, 40)]
  assembled := .ok (some outPathOk)
  fileSize := fun p => if p = outPathOk then some (5 * 1024 * 1024) else none

/-- The nominal environment except that the audio detector succeeds with
an empty signal (it found nothing). -/
def envEmptyAudio : Env :=
  { envAllOk with audio := .ok [] }

/-- The nominal environment except that the assembled output file exists
with size zero bytes. -/
def envZero : Env :=
  { envAllOk with
    assembled := .ok (some "output/highlights_zero.mp4")
    fileSize := fun p =>
      if p = "output/highlights_zero.mp4" then some 0 else none }

/-- Which pipeline call raises in a single-failure environment. -/
inductive FailStage
  | scene
  | audio
  | action
  | select
  | assemble
deriving DecidableEq, Repr

/-- The nominal environment with exactly one pipeline call raising an
exception carrying `msg`; every other call behaves as in `envAllOk`. -/
def envFailAt (s : FailStage) (msg : String) : Env :=
  { envAllOk with
    scenes := if s = .scene then .error msg else envAllOk.scenes
    audio := if s = .audio then .error msg else envAllOk.audio
    actions := if s = .action then .error msg else envAllOk.actions
    highlights :=
      if s = .select then fun _ => .error msg else envAllOk.highlights
    assembled := if s = .assemble then .error msg else envAllOk.assembled }

end Highlights

namespace Highlights

/-- C1: for a known positive duration `d` the target duration passed to
the selection stage is `min 60 (d × 0.3)`; for an unknown or zero
duration it is `60`. -/
theorem target_duration_policy (info : Option ℚ) :
    (∀ d : ℚ, info = some d → 0 < d →
      targetDurationOf info = min 60 (d * (3 / 10)))
    ∧ ((info = none ∨ info = some 0) → targetDurationOf info = 60) := by
  constructor
  · rintro d rfl hd
    simp [targetDurationOf, videoDurationOf, hd.ne']
  · rintro (rfl | rfl) <;> simp [targetDurationOf, videoDurationOf]

/-- Witness for C1 at duration 5 and at an unknown duration. -/
theorem target_duration_policy_witness :
    targetDurationOf (some 5) = min 60 (5 * (3 / 10))
    ∧ targetDurationOf none = 60 :=
  ⟨(target_duration_policy (some 5)).1 5 rfl (by norm_num),
   (target_duration_policy none).2 (Or.inl rfl)⟩

end Highlights

namespace Selector

/-- C8 counterexample: on Scenario A's candidates with budget 20 the
selector returns the pair `(15,20)`, `(25,40)` — not the single segment
`(25,40)` the claim states. -/
theorem scenarioA_not_single_segment :
    (selectKnapsack scenarioA 20).2 =
      [⟨15, 20, 2 / 5⟩, ⟨25, 40, 19 / 20⟩]
    ∧ decide ((selectKnapsack scenarioA 20).2 =
        [(⟨25, 40, 19 / 20⟩ : Candidate)]) = false := by
  constructor
  · simp only [scenarioA, selectKnapsack, duration, weightedScore]
    norm_num
  · simp only [scenarioA, selectKnapsack, duration, weightedScore]
    norm_num

/-- C8 amended: on Scenario A with budget 20 the optimal budgeted
selection is `(15,20)` together with `(25,40)`, total weighted score
16.25, strictly better both than the single segment `(25,40)` (14.25)
and than the pair `(0,10)`, `(15,20)` (11). -/
theorem scenarioA_selection :
    selectKnapsack scenarioA 20 =
      (65 / 4, [⟨15, 20, 2 / 5⟩, ⟨25, 40, 19 / 20⟩])
    ∧ weightedScore ⟨25, 40, 19 / 20⟩ = 57 / 4
    ∧ weightedScore ⟨0, 10, 9 / 10⟩ + weightedScore ⟨15, 20, 2 / 5⟩ = 11
    ∧ (57 / 4 : ℚ) < 65 / 4 ∧ (11 : ℚ) < 65 / 4 := by
  refine ⟨?_, ?_, ?_, by norm_num, by norm_num⟩
  · simp only [scenarioA, selectKnapsack, duration, weightedScore]
    norm_num
  · simp [weightedScore, duration]
    norm_num
  · simp [weightedScore, duration]
    norm_num

end Selector

namespace SimpleIntro

/-- C9: in the intro command the `-t` output limit is the constant `"2"`,
the lavfi colour source argument carries `:d=2`, and the width and height
arguments change nothing but that one colour source argument (index 5). -/
theorem intro_cmd_duration_fixed (p : String) (w h w' h' : Nat) :
    (introCmd p w h).get? 11 = some "2"
    ∧ (introCmd p w h).get? 5 =
        some ("color=c=black:s=" ++ toString w ++ "x" ++ toString h
          ++ ":d=2")
    ∧ (introCmd p w h).take 5 = (introCmd p w' h').take 5
    ∧ (introCmd p w h).drop 6 = (introCmd p w' h').drop 6 :=
  ⟨rfl, rfl, rfl, rfl⟩

/-- C10: `create_simple_highlight_intro` always hands the caller a
boolean: it returns `true` exactly when no internal exception occurred,
ffmpeg exited with code 0 and the output file exists with more than 1000
bytes; every exception the body raises is mapped to `false`. -/
theorem intro_total_boolean (env : IntroEnv) :
    (create_simple_highlight_intro env = true ↔
      env.otherExn = none ∧ env.run = .ok 0
        ∧ ∃ s, env.size = some s ∧ 1000 < s)
    ∧ (∀ e, introBody env = .error e →
        create_simple_highlight_intro env = false) := by
  obtain ⟨run, size, oe⟩ := env
  constructor
  · cases oe with
    | some e => simp [create_simple_highlight_intro, introBody]
    | none =>
      cases run with
      | error e => simp [create_simple_highlight_intro, introBody]
      | ok rc =>
        by_cases hrc : rc = 0
        · subst hrc
          cases size with
          | none => simp [create_simple_highlight_intro, introBody]
          | some s =>
            simp [create_simple_highlight_intro, introBody]
        · cases size <;>
            simp [create_simple_highlight_intro, introBody, hrc]
  · intro e he
    simp only [create_simple_highlight_intro, he]

/-- Witness for C10: a clean run reports `true`; a run whose body raises
reports `false`. -/
theorem intro_total_boolean_witness :
    create_simple_highlight_intro ⟨Except.ok 0, some 5000, none⟩ = true
    ∧ create_simple_highlight_intro ⟨Except.error "boom", none, none⟩
        = false :=
  ⟨(intro_total_boolean ⟨Except.ok 0, some 5000, none⟩).1.mpr
      ⟨rfl, rfl, 5000, rfl, by norm_num⟩,
   (intro_total_boolean ⟨Except.error "boom", none, none⟩).2 "boom" rfl⟩

end SimpleIntro

namespace Highlights

/-- C2 counterexample: when the audio detector raises (a timeout) while
every other call would succeed, the request is aborted by the exception
handler with a hard error — the pipeline stops after the audio stage and
no output is produced. -/
theorem detector_failure_aborts_request :
    (runMain (envFailAt .audio "detector timed out")).2 =
      Outcome.errorShown "Error generating highlights: detector timed out"
    ∧ stageTrace (envFailAt .audio "detector timed out") =
        [Stage.scene, Stage.audio] := by
  constructor <;> decide

/-- C2 amended: a pipeline call that raises aborts the whole request with
a hard displayed error, while a detector that merely returns an empty
signal is tolerated silently — the request completes successfully with no
warning shown. -/
theorem exception_fatal_empty_signal_silent (msg : String) :
    (runMain (envFailAt .audio msg)).2 = Outcome.errorShown (errHead ++ msg)
    ∧ (runMain envEmptyAudio).2 = Outcome.successShown outPathOk :=
  ⟨rfl, by decide⟩

/-- C3 counterexample: on a fully successful request the temporary
directory is created but no removal event ever occurs. -/
theorem temp_dir_not_removed_on_success :
    ((runMain envAllOk).1.all fun e => !(e.isRemove)) = true
    ∧ Event.mkdtemp "tmp_req" ∈ (runMain envAllOk).1
    ∧ (runMain envAllOk).2 = Outcome.successShown outPathOk := by
  refine ⟨?_, ?_, ?_⟩ <;> decide

/-- C3 amended: on every exit path the request handler creates the
temporary directory as its first filesystem operation and never removes
any directory. -/
theorem temp_dir_never_removed (env : Env) :
    ((runMain env).1.all fun e => !(e.isRemove)) = true
    ∧ (runMain env).1.head? = some (Event.mkdtemp env.tempDir) := by
  obtain ⟨un, td, vi, sc, au, ac, hl, asm, fs⟩ := env
  rcases sc with e | s₁
  · exact ⟨rfl, rfl⟩
  rcases au with e | s₂
  · exact ⟨rfl, rfl⟩
  rcases ac with e | s₃
  · exact ⟨rfl, rfl⟩
  rcases h : hl (targetDurationOf vi) with e | s₄
  · constructor <;> simp [runMain, h, Event.isRemove]
  rcases asm with e | op
  · constructor <;> simp [runMain, h, Event.isRemove]
  rcases op with _ | p
  · constructor <;> simp [runMain, h, Event.isRemove]
  by_cases hp : p ≠ "" ∧ (fs p).isSome
  · constructor <;> simp [runMain, h, hp, Event.isRemove]
  · constructor <;> simp [runMain, h, hp, Event.isRemove]

/-- C4 counterexample: the results area reports success for an assembled
output that exists with size zero bytes — no size check is made. -/
theorem success_shown_for_zero_byte_output :
    (runMain envZero).2 = Outcome.successShown "output/highlights_zero.mp4"
    ∧ envZero.fileSize "output/highlights_zero.mp4" = some 0 := by
  constructor <;> decide

/-- C4 amended: `create_simple_highlight_intro` reports success only when
its output exists with more than 1000 bytes, while the app-level results
area reports assembly success exactly under a truthy returned path that
exists on disk — with no size requirement. -/
theorem artifact_success_requires_existing_file :
    (∀ ienv : SimpleIntro.IntroEnv,
      SimpleIntro.create_simple_highlight_intro ienv = true →
        ∃ s, ienv.size = some s ∧ 1000 < s)
    ∧ (∀ (env : Env) (p : String),
        (runMain env).2 = Outcome.successShown p →
          p ≠ "" ∧ (env.fileSize p).isSome) := by
  constructor
  · intro ienv htrue
    obtain ⟨run, size, oe⟩ := ienv
    cases oe with
    | some e =>
      simp [SimpleIntro.create_simple_highlight_intro,
        SimpleIntro.introBody] at htrue
    | none =>
      cases run with
      | error e =>
        simp [SimpleIntro.create_simple_highlight_intro,
          SimpleIntro.introBody] at htrue
      | ok rc =>
        by_cases hrc : rc = 0
        · subst hrc
          cases size with
          | none =>
            simp [SimpleIntro.create_simple_highlight_intro,
              SimpleIntro.introBody] at htrue
          | some s =>
            simp [SimpleIntro.create_simple_highlight_intro,
              SimpleIntro.introBody] at htrue
            exact ⟨s, rfl, htrue⟩
        · cases size <;>
            simp [SimpleIntro.create_simple_highlight_intro,
              SimpleIntro.introBody, hrc] at htrue
  · intro env p hsucc
    obtain ⟨un, td, vi, sc, au, ac, hl, asm, fs⟩ := env
    rcases sc with e | s₁
    · simp [runMain] at hsucc
    rcases au with e | s₂
    · simp [runMain] at hsucc
    rcases ac with e | s₃
    · simp [runMain] at hsucc
    rcases h : hl (targetDurationOf vi) with e | s₄
    · simp [runMain, h] at hsucc
    rcases asm with e | op
    · simp [runMain, h] at hsucc
    rcases op with _ | q
    · simp [runMain, h] at hsucc
    by_cases hp : q ≠ "" ∧ (fs q).isSome
    · have hq : q = p := by
        simp [runMain, h, hp] at hsucc
        exact hsucc
      exact hq ▸ hp
    · simp [runMain, h, hp] at hsucc

/-- Witness for C4 amended: a clean intro run satisfies the size bound,
and the nominal app request's output path is truthy and exists. -/
theorem artifact_success_requires_existing_file_witness :
    (∃ s, (⟨Except.ok 0, some 5000, none⟩ :
        SimpleIntro.IntroEnv).size = some s ∧ 1000 < s)
    ∧ (outPathOk ≠ "" ∧ (envAllOk.fileSize outPathOk).isSome) :=
  ⟨artifact_success_requires_existing_file.1
      ⟨Except.ok 0, some 5000, none⟩ (by decide),
   artifact_success_requires_existing_file.2 envAllOk outPathOk (by decide)⟩

/-- Decimal digit characters are distinct: `Nat.digitChar` is injective
below 10. -/
theorem digitChar_inj_lt : ∀ a < 10, ∀ b < 10,
    Nat.digitChar a = Nat.digitChar b → a = b := by decide

/-- The character list of a formatted timestamp, digit by digit. -/
theorem formatTimestamp_data (y mo d hh mi s : Nat) :
    (formatTimestamp ⟨y, mo, d, hh, mi, s⟩).data =
      [Nat.digitChar (y / 1000), Nat.digitChar (y / 100 % 10),
       Nat.digitChar (y / 10 % 10), Nat.digitChar (y % 10),
       Nat.digitChar (mo / 10), Nat.digitChar (mo % 10),
       Nat.digitChar (d / 10), Nat.digitChar (d % 10),
       '_',
       Nat.digitChar (hh / 10), Nat.digitChar (hh % 10),
       Nat.digitChar (mi / 10), Nat.digitChar (mi % 10),
       Nat.digitChar (s / 10), Nat.digitChar (s % 10)] := rfl

/-- A formatted timestamp is always 15 characters wide. -/
theorem formatTimestamp_data_length (t : Timestamp) :
    (formatTimestamp t).data.length = 15 := by
  obtain ⟨y, mo, d, hh, mi, s⟩ := t
  rw [formatTimestamp_data]
  rfl

/-- `formatTimestamp` is injective on valid timestamps: equal renderings
force equal fields. -/
theorem formatTimestamp_inj {t₁ t₂ : Timestamp}
    (h₁ : ValidTime t₁) (h₂ : ValidTime t₂)
    (h : (formatTimestamp t₁).data = (formatTimestamp t₂).data) :
    t₁ = t₂ := by
  obtain ⟨y₁, mo₁, d₁, hh₁, mi₁, s₁⟩ := t₁
  obtain ⟨y₂, mo₂, d₂, hh₂, mi₂, s₂⟩ := t₂
  have v₁ : y₁ < 10000 ∧ mo₁ < 100 ∧ d₁ < 100 ∧ hh₁ < 100 ∧
      mi₁ < 100 ∧ s₁ < 100 := h₁
  have v₂ : y₂ < 10000 ∧ mo₂ < 100 ∧ d₂ < 100 ∧ hh₂ < 100 ∧
      mi₂ < 100 ∧ s₂ < 100 := h₂
  obtain ⟨vy₁, vmo₁, vd₁, vhh₁, vmi₁, vs₁⟩ := v₁
  obtain ⟨vy₂, vmo₂, vd₂, vhh₂, vmi₂, vs₂⟩ := v₂
  rw [formatTimestamp_data, formatTimestamp_data] at h
  simp only [List.cons.injEq, and_true] at h
  obtain ⟨e₁, e₂, e₃, e₄, e₅, e₆, e₇, e₈, -, e₉, e₁₀, e₁₁, e₁₂, e₁₃, e₁₄⟩ := h
  have hy : y₁ = y₂ := by
    have q₁ := digitChar_inj_lt _ (by omega) _ (by omega) e₁
    have q₂ := digitChar_inj_lt _ (by omega) _ (by omega) e₂
    have q₃ := digitChar_inj_lt _ (by omega) _ (by omega) e₃
    have q₄ := digitChar_inj_lt _ (by omega) _ (by omega) e₄
    omega
  have hmo : mo₁ = mo₂ := by
    have q₁ := digitChar_inj_lt _ (by omega) _ (by omega) e₅
    have q₂ := digitChar_inj_lt _ (by omega) _ (by omega) e₆
    omega
  have hd : d₁ = d₂ := by
    have q₁ := digitChar_inj_lt _ (by omega) _ (by omega) e₇
    have q₂ := digitChar_inj_lt _ (by omega) _ (by omega) e₈
    omega
  have hhh : hh₁ = hh₂ := by
    have q₁ := digitChar_inj_lt _ (by omega) _ (by omega) e₉
    have q₂ := digitChar_inj_lt _ (by omega) _ (by omega) e₁₀
    omega
  have hmi : mi₁ = mi₂ := by
    have q₁ := digitChar_inj_lt _ (by omega) _ (by omega) e₁₁
    have q₂ := digitChar_inj_lt _ (by omega) _ (by omega) e₁₂
    omega
  have hs : s₁ = s₂ := by
    have q₁ := digitChar_inj_lt _ (by omega) _ (by omega) e₁₃
    have q₂ := digitChar_inj_lt _ (by omega) _ (by omega) e₁₄
    omega
  rw [hy, hmo, hd, hhh, hmi, hs]

/-- C5: any two distinct requests — including two processed concurrently
in the same wall-clock second — receive distinct generated output
filenames, the name being derived from the timestamp plus the source
identifier. -/
theorem generated_names_collision_free (r₁ r₂ : Request)
    (h₁ : ValidTime r₁.now) (h₂ : ValidTime r₂.now) (hne : r₁ ≠ r₂) :
    generatedOutputName r₁ ≠ generatedOutputName r₂ := by
  intro h
  apply hne
  obtain ⟨s₁, t₁⟩ := r₁
  obtain ⟨s₂, t₂⟩ := r₂
  have hd := congrArg String.data h
  simp only [generatedOutputName, String.data_append,
    List.append_assoc] at hd
  have hd' := List.append_cancel_left hd
  obtain ⟨hf, hrest⟩ := List.append_inj hd'
    (by rw [formatTimestamp_data_length, formatTimestamp_data_length])
  have ht : t₁ = t₂ := formatTimestamp_inj h₁ h₂ hf
  have hs : s₁ = s₂ :=
    String.ext (List.append_cancel_right (List.append_cancel_left hrest))
  rw [hs, ht]

/-- Witness for C5: two concrete requests named in the same second with
different source identifiers get different filenames. -/
theorem generated_names_collision_free_witness :
    generatedOutputName ⟨"a.mp4", ⟨2026, 1, 1, 12, 0, 0⟩⟩ ≠
      generatedOutputName ⟨"b.mp4", ⟨2026, 1, 1, 12, 0, 0⟩⟩ :=
  generated_names_collision_free
    ⟨"a.mp4", ⟨2026, 1, 1, 12, 0, 0⟩⟩
    ⟨"b.mp4", ⟨2026, 1, 1, 12, 0, 0⟩⟩
    (by decide) (by decide) (by decide)

/-- C6 counterexample: failures at two different stages with the same
exception text are reported to the user with identical messages — the
message carries no stage information, only the raw exception text behind
a fixed generic head. -/
theorem error_message_lacks_stage :
    (runMain (envFailAt .scene "boom")).2 =
      (runMain (envFailAt .audio "boom")).2
    ∧ (runMain (envFailAt .scene "boom")).2 =
        Outcome.errorShown "Error generating highlights: boom"
    ∧ stageTrace (envFailAt .scene "boom") = [Stage.scene]
    ∧ stageTrace (envFailAt .audio "boom") =
        [Stage.scene, Stage.audio] := by
  refine ⟨?_, ?_, ?_, ?_⟩ <;> decide

/-- C6 amended: whichever pipeline call raises, the user sees the fixed
head `"Error generating highlights: "` followed by the raw exception
text, with no identification of the failing stage. -/
theorem error_reported_with_fixed_head (s : FailStage) (msg : String) :
    (runMain (envFailAt s msg)).2 = Outcome.errorShown (errHead ++ msg) := by
  cases s <;> rfl

/-- C7: every request enters the stages in the fixed order scene → audio
→ action → select → assemble → report, its stage trace being a front
portion of that order, and results are reported only on requests whose
trace is the complete order. -/
theorem stages_run_in_order (env : Env) :
    (∃ t, stageTrace env ++ t = canonicalStages)
    ∧ (Stage.report ∈ stageTrace env →
        stageTrace env = canonicalStages) := by
  obtain ⟨un, td, vi, sc, au, ac, hl, asm, fs⟩ := env
  rcases sc with e | s₁
  · exact ⟨⟨[.audio, .action, .select, .assemble, .report], rfl⟩,
      by simp [stageTrace, runMain]⟩
  rcases au with e | s₂
  · exact ⟨⟨[.action, .select, .assemble, .report], rfl⟩,
      by simp [stageTrace, runMain]⟩
  rcases ac with e | s₃
  · exact ⟨⟨[.select, .assemble, .report], rfl⟩,
      by simp [stageTrace, runMain]⟩
  rcases h : hl (targetDurationOf vi) with e | s₄
  · refine ⟨⟨[.assemble, .report], ?_⟩, ?_⟩ <;>
      simp [stageTrace, runMain, h, canonicalStages]
  rcases asm with e | op
  · refine ⟨⟨[.report], ?_⟩, ?_⟩ <;>
      simp [stageTrace, runMain, h, canonicalStages]
  rcases op with _ | p
  · exact ⟨⟨[], by simp [stageTrace, runMain, h, canonicalStages]⟩,
      fun _ => by simp [stageTrace, runMain, h, canonicalStages]⟩
  by_cases hp : p ≠ "" ∧ (fs p).isSome
  · exact ⟨⟨[], by simp [stageTrace, runMain, h, hp, canonicalStages]⟩,
      fun _ => by simp [stageTrace, runMain, h, hp, canonicalStages]⟩
  · exact ⟨⟨[], by simp [stageTrace, runMain, h, hp, canonicalStages]⟩,
      fun _ => by simp [stageTrace, runMain, h, hp, canonicalStages]⟩

/-- Witness for C7: the nominal request's stage trace is the complete
canonical order. -/
theorem stages_run_in_order_witness :
    stageTrace envAllOk = canonicalStages :=
  (stages_run_in_order envAllOk).2 (by decide)

end Highlights

